import Mathlib

/-!
Verification of the namespace-splitting / signing / reconstruction protocol in
`crates/astria-sequencer-relayer/src/data_availability.rs`.

Modelling conventions (shallow embedding):
* Byte strings that are only compared for equality (block hashes, raw
  transactions) are `List Nat`.
* Serialization and SHA-256 hashing are modelled symbolically but executably:
  the JSON serialization of a payload is injective, so the SHA-256 hash of the
  serialized payload is modelled as an injective constructor applied to the
  payload itself (ideal collision-free hash), and the serialized bytes of a
  signed envelope are modelled as a constructor of `BlobBytes` applied to the
  envelope (with a `garbage` constructor for bytes that deserialize as
  neither envelope type).
* ed25519 signing keys are `Nat`; the verification key derived from a signing
  key is modelled as the same `Nat` (derivation is deterministic and
  injective).  Stored public-key bytes and signature bytes can be malformed,
  which `KeyBytes` and `SigBytes` represent with explicit constructors;
  `ed25519_consensus` signing is deterministic (RFC 8032), so `sign` is a
  pure function producing `SigBytes.sigOf`.
* `tendermint::block::Header` and `Commit` are external opaque types.  The
  system design contemplates headers whose JSON serialization fails
  (partial-batch resilience), so `Header` carries a `serializable` flag that
  decides whether `serde_json::to_vec` succeeds on payloads containing it.
* Rust `HashMap` contents are association lists carried in a canonical order
  (collection order); `collect` on an iterator of pairs inserts left to
  right with later keys overwriting earlier ones, which `hashMapCollect`
  mirrors.
* The Celestia JSONRPC transport is external: `blob_get_all` and
  `state_submit_pay_for_blob` are passed in as function parameters, so one
  invocation of the code under test corresponds to applying the Lean
  function to a concrete transport behaviour.
* `eyre` error contexts are modelled as the context string alone (the
  underlying cause chain is elided; no claim depends on message contents).
-/

deriving instance DecidableEq for Except

namespace Astria

/-! Basic data model, from `crate::types` (modelled from the spec where the
types crate is not in the sources: `Namespace` is a fixed-width identifier
compared by value, `IndexedTransaction` an index paired with raw bytes,
`SequencerBlockData` the block value the assembler consumes). -/

abbrev Namespace := Nat

/-- Well-known base namespace for sequencer-level data (`DEFAULT_NAMESPACE`). -/
def DEFAULT_NAMESPACE : Namespace := 0

/-- Modelled from the spec: `IndexedTransaction` from `crate::types` (not under
the sources) is an unsigned index paired with raw transaction bytes. -/
structure IndexedTransaction where
  index : Nat
  transaction : List Nat
deriving DecidableEq

/-- Opaque stand-in for `tendermint::block::Header`; the `serializable` flag
models whether `serde_json` serialization of a payload containing this header
succeeds. -/
structure Header where
  contents : Nat
  serializable : Bool
deriving DecidableEq

/-- Opaque stand-in for `tendermint::block::Commit`. -/
abbrev Commit := Nat

/-- Modelled from the spec: `SequencerBlockData` from `crate::types` (not under
the sources): block hash, header, optional last commit, and the rollup
transaction mapping.  The `HashMap` is carried as an association list in its
iteration order. -/
structure SequencerBlockData where
  block_hash : List Nat
  header : Header
  last_commit : Option Commit
  rollup_txs : List (Namespace × List IndexedTransaction)
deriving DecidableEq

/-- `RollupNamespaceData`: data written to one rollup namespace. -/
structure RollupNamespaceData where
  block_hash : List Nat
  rollup_txs : List IndexedTransaction
deriving DecidableEq

/-- `SequencerNamespaceData`: data written to the base sequencer namespace. -/
structure SequencerNamespaceData where
  block_hash : List Nat
  header : Header
  last_commit : Option Commit
  rollup_namespaces : List Namespace
deriving DecidableEq

/-! Symbolic cryptography. -/

/-- SHA-256 of the JSON serialization of a payload, modelled as an injective
constructor per payload type (ideal collision-free hash over injective
serialization). -/
inductive MsgHash where
  | rollupHash (d : RollupNamespaceData)
  | sequencerHash (d : SequencerNamespaceData)
deriving DecidableEq

/-- Stored public-key bytes: either the valid encoding of a verification key
or bytes from which no key can be constructed. -/
inductive KeyBytes where
  | keyOf (vk : Nat)
  | malformedKey (raw : List Nat)
deriving DecidableEq

/-- Stored signature bytes: either a well-formed signature produced by key
`vk` over message hash `msg`, or bytes from which no signature can be
constructed. -/
inductive SigBytes where
  | sigOf (vk : Nat) (msg : MsgHash)
  | malformedSig (raw : List Nat)
deriving DecidableEq

/-- `ed25519_consensus::VerificationKey::try_from` on stored bytes. -/
def VerificationKey.try_from : KeyBytes → Except String Nat
  | .keyOf vk => .ok vk
  | .malformedKey _ => .error "failed deserializing public key from bytes"

/-- `ed25519_consensus::Signature::try_from` on stored bytes; a parsed
signature is the pair of the signing key and the signed message hash. -/
def Signature.try_from : SigBytes → Except String (Nat × MsgHash)
  | .sigOf vk msg => .ok (vk, msg)
  | .malformedSig _ => .error "failed deserializing signature from bytes"

/-- `VerificationKey::verify`: a parsed signature checks out against key `vk`
and message `msg` exactly when it was produced by `vk` over `msg`. -/
def verifySignature (vk : Nat) (sig : Nat × MsgHash) (msg : MsgHash) : Bool :=
  decide (sig.1 = vk) && decide (sig.2 = msg)

/-- `SignedNamespaceData<D>`: payload with stored public-key and signature
bytes. -/
structure SignedNamespaceData (D : Type) where
  data : D
  public_key : KeyBytes
  signature : SigBytes
deriving DecidableEq

/-- Serialized bytes of a blob payload: the JSON bytes of a signed rollup
envelope, the JSON bytes of a signed sequencer envelope, or bytes that
deserialize as neither. -/
inductive BlobBytes where
  | rollupBytes (d : SignedNamespaceData RollupNamespaceData)
  | sequencerBytes (d : SignedNamespaceData SequencerNamespaceData)
  | garbage (raw : List Nat)
deriving DecidableEq

/-- `blob::Blob`: the unit written to / read from the DA network. -/
structure Blob where
  namespace_id : Namespace
  data : BlobBytes
deriving DecidableEq

/-- The `NamespaceData` trait: hashing of the JSON-serialized payload plus the
envelope (de)serialization used by `SignedNamespaceData::to_bytes` and
`from_bytes`, one instance per payload type. -/
class NamespaceData (D : Type) where
  hash_json_serialized_bytes : D → Except String MsgHash
  envelope_to_bytes : SignedNamespaceData D → Except String BlobBytes
  envelope_from_bytes : BlobBytes → Except String (SignedNamespaceData D)

/-- `NamespaceData::to_signed`: hash the JSON-serialized payload, sign the
hash, store the payload with the signer's verification key bytes and the
signature bytes. -/
def NamespaceData.to_signed {D : Type} [NamespaceData D] (d : D) (signing_key : Nat) :
    Except String (SignedNamespaceData D) :=
  match NamespaceData.hash_json_serialized_bytes d with
  | .error e => .error e
  | .ok hash =>
    .ok ⟨d, KeyBytes.keyOf signing_key, SigBytes.sigOf signing_key hash⟩

/-- `SignedNamespaceData::to_bytes` (JSON serialization of the envelope). -/
def SignedNamespaceData.to_bytes {D : Type} [NamespaceData D]
    (s : SignedNamespaceData D) : Except String BlobBytes :=
  NamespaceData.envelope_to_bytes s

/-- `SignedNamespaceData::from_bytes` (JSON deserialization of the envelope). -/
def SignedNamespaceData.from_bytes (D : Type) [NamespaceData D]
    (b : BlobBytes) : Except String (SignedNamespaceData D) :=
  NamespaceData.envelope_from_bytes b

/-- `SignedNamespaceData::verify`: parse the stored key bytes, parse the
stored signature bytes, recompute the payload hash, check the signature. -/
def SignedNamespaceData.verify {D : Type} [NamespaceData D]
    (s : SignedNamespaceData D) : Except String Unit :=
  match VerificationKey.try_from s.public_key with
  | .error e => .error e
  | .ok vk =>
    match Signature.try_from s.signature with
    | .error e => .error e
    | .ok sig =>
      match NamespaceData.hash_json_serialized_bytes s.data with
      | .error e => .error e
      | .ok data_bytes =>
        if verifySignature vk sig data_bytes then .ok ()
        else .error "failed verifying signature"

/-- Rollup payloads contain only byte strings and transaction lists, so their
JSON serialization (and hence hashing and envelope serialization) is total. -/
instance rollupPayloadInst : NamespaceData RollupNamespaceData where
  hash_json_serialized_bytes d := .ok (MsgHash.rollupHash d)
  envelope_to_bytes s := .ok (BlobBytes.rollupBytes s)
  envelope_from_bytes b :=
    match b with
    | .rollupBytes d => .ok d
    | _ => .error "failed deserializing signed namespace data from bytes"

/-- Sequencer payloads contain the opaque header, whose serialization can
fail; hashing and envelope serialization fail exactly on unserializable
headers. -/
instance sequencerPayloadInst : NamespaceData SequencerNamespaceData where
  hash_json_serialized_bytes d :=
    if d.header.serializable then .ok (MsgHash.sequencerHash d)
    else .error "failed serializing namespace data as json bytes"
  envelope_to_bytes s :=
    if s.data.header.serializable then .ok (BlobBytes.sequencerBytes s)
    else .error "failed serializing signed namespace data to json"
  envelope_from_bytes b :=
    match b with
    | .sequencerBytes d => .ok d
    | _ => .error "failed deserializing signed namespace data from bytes"

/-! Transport model (`astria_celestia_jsonrpc_client`): requests, responses,
and the error taxonomy the reconstruction path inspects. -/

/-- `blob::GetAllRequest`. -/
structure GetAllRequest where
  height : Nat
  namespace_ids : List Namespace
deriving DecidableEq

/-- `blob::GetAllResponse`. -/
structure GetAllResponse where
  blobs : List Blob
deriving DecidableEq

/-- `JsonRpseeError`: a call error carrying a message, or another RPC error. -/
inductive JsonRpseeError where
  | call (message : String)
  | otherRpc (code : Nat)
deriving DecidableEq

/-- `ErrorKind` of a transport error. -/
inductive ErrorKind where
  | rpc (e : JsonRpseeError)
  | otherKind (code : Nat)
deriving DecidableEq

/-- Whether `needle` occurs as a contiguous sublist of the second list. -/
def containsSublist (needle : List Char) : List Char → Bool
  | [] => needle.isEmpty
  | c :: rest => List.isPrefixOf needle (c :: rest) || containsSublist needle rest

/-- Whether `message` contains the substring `blob: not found`. -/
def containsBlobNotFound (message : String) : Bool :=
  containsSublist ("blob: not found".toList) message.toList

/-- The condition under which `get_all_rollup_data_from_sequencer_namespace_data`
maps a transport failure to absence: the error is an RPC call error whose
message contains `blob: not found`. -/
def errorSignalsNotFound : ErrorKind → Bool
  | .rpc (.call inner) => containsBlobNotFound inner
  | _ => false

/-- `state::SubmitPayForBlobRequest`. -/
structure SubmitPayForBlobRequest where
  fee : Nat
  gas_limit : Nat
  blobs : List Blob
deriving DecidableEq

/-- `state::SubmitPayForBlobResponse`. -/
structure SubmitPayForBlobResponse where
  height : Nat
deriving DecidableEq

/-- `SubmitBlockResponse`. -/
structure SubmitBlockResponse where
  height : Nat
deriving DecidableEq

def DEFAULT_PFD_GAS_LIMIT : Nat := 1000000

def DEFAULT_PFD_FEE : Nat := 100000

/-- `CelestiaClient` configuration state (the wrapped RPC client itself is
external and passed as a function where needed). -/
structure CelestiaClient where
  gas_limit : Nat
  fee : Nat
deriving DecidableEq

/-! The assembler. -/

/-- The loop body of `assemble_blobs_from_sequencer_block_data`: for each
`(namespace, txs)` pair in iteration order, build the rollup payload with the
block's hash, sign it, serialize the envelope, and emit a blob tagged with
that namespace; the first failure aborts the whole assembly. -/
def assembleRollupBlobs (block_hash : List Nat) (signing_key : Nat) :
    List (Namespace × List IndexedTransaction) → Except String (List Blob)
  | [] => .ok []
  | p :: rest =>
    match NamespaceData.to_signed
        (⟨block_hash, p.2⟩ : RollupNamespaceData) signing_key with
    | .error e => .error e
    | .ok signed =>
      match signed.to_bytes with
      | .error e => .error e
      | .ok data =>
        match assembleRollupBlobs block_hash signing_key rest with
        | .error e => .error e
        | .ok tail => .ok (Blob.mk p.1 data :: tail)

/-- `assemble_blobs_from_sequencer_block_data`: one signed rollup blob per
mapping entry (in iteration order), then one signed sequencer blob on the
base namespace listing the rollup namespaces in the same order.  In the
source, blobs and referenced namespaces are accumulated together in one loop
and any failure aborts the whole function, so on the success path the
namespace list is exactly the mapping's key list. -/
def assemble_blobs_from_sequencer_block_data (block_data : SequencerBlockData)
    (signing_key : Nat) : Except String (List Blob) :=
  match assembleRollupBlobs block_data.block_hash signing_key block_data.rollup_txs with
  | .error e => .error e
  | .ok blobs =>
    let namespaces := block_data.rollup_txs.map Prod.fst
    let sequencer_namespace_data : SequencerNamespaceData :=
      ⟨block_data.block_hash, block_data.header, block_data.last_commit, namespaces⟩
    match NamespaceData.to_signed sequencer_namespace_data signing_key with
    | .error e => .error e
    | .ok signedSeq =>
      match signedSeq.to_bytes with
      | .error e => .error e
      | .ok data => .ok (blobs ++ [Blob.mk DEFAULT_NAMESPACE data])

/-! The submit path. -/

/-- `CelestiaClient::submit_namespaced_data`: build the pay-for-blob request
from the client's fee and gas limit and invoke the external RPC. -/
def submit_namespaced_data
    (state_submit_pay_for_blob : SubmitPayForBlobRequest → Except ErrorKind SubmitPayForBlobResponse)
    (client : CelestiaClient) (blobs : List Blob) :
    Except String SubmitPayForBlobResponse :=
  match state_submit_pay_for_blob ⟨client.fee, client.gas_limit, blobs⟩ with
  | .ok rsp => .ok rsp
  | .error _ => .error "failed submitting pay for data to client"

/-- `CelestiaClient::submit_all_blocks`: assemble each block independently,
dropping (with a warning) blocks whose assembly fails, then submit the whole
accumulated batch in one RPC. -/
def submit_all_blocks
    (state_submit_pay_for_blob : SubmitPayForBlobRequest → Except ErrorKind SubmitPayForBlobResponse)
    (client : CelestiaClient) (blocks : List SequencerBlockData)
    (signing_key : Nat) : Except String SubmitBlockResponse :=
  let all_blobs := blocks.foldl
    (fun acc block =>
      match assemble_blobs_from_sequencer_block_data block signing_key with
      | .ok blobs => acc ++ blobs
      | .error _ => acc)
    []
  match submit_namespaced_data state_submit_pay_for_blob client all_blobs with
  | .ok rsp => .ok ⟨rsp.height⟩
  | .error _ => .error "failed submitting namespaced data to data availability layer"

/-! The reconstruction path. -/

/-- Insertion into a `HashMap` carried as an association list: replace the
value at an existing key, otherwise append. -/
def hashMapInsert {α : Type} (m : List (Namespace × α)) (k : Namespace) (v : α) :
    List (Namespace × α) :=
  if m.any (fun p => p.1 == k) then
    m.map (fun p => if p.1 == k then (k, v) else p)
  else
    m ++ [(k, v)]

/-- `collect::<HashMap<_, _>>()` on an iterator of pairs: left-to-right
insertion, later values for the same key overwriting earlier ones. -/
def hashMapCollect {α : Type} (l : List (Namespace × α)) : List (Namespace × α) :=
  l.foldl (fun m p => hashMapInsert m p.1 p.2) []

/-- Deserialization step of reconstruction: keep only blobs whose bytes parse
as a signed rollup envelope, keyed by the blob's source namespace, collected
into a map. -/
def collectRollupDatas (blobs : List Blob) :
    List (Namespace × SignedNamespaceData RollupNamespaceData) :=
  hashMapCollect (blobs.filterMap (fun blob =>
    match SignedNamespaceData.from_bytes RollupNamespaceData blob.data with
    | .ok data => some (blob.namespace_id, data)
    | .error _ => none))

/-- Block-hash linkage filter: retain rollup datas whose payload block hash
equals the sequencer envelope's block hash. -/
def retainMatchingBlockHash (block_hash : List Nat)
    (m : List (Namespace × SignedNamespaceData RollupNamespaceData)) :
    List (Namespace × SignedNamespaceData RollupNamespaceData) :=
  m.filter (fun p => decide (block_hash = p.2.data.block_hash))

/-- The verification check applied to one retrieved rollup envelope: hash its
JSON-serialized payload, parse its stored signature bytes, and check the
signature under the given verification key (the key taken from the sequencer
envelope, not from the rollup envelope). -/
def verifyRollupEntry (verification_key : Nat)
    (rollup_data : SignedNamespaceData RollupNamespaceData) : Bool :=
  match NamespaceData.hash_json_serialized_bytes rollup_data.data with
  | .error _ => false
  | .ok hash =>
    match Signature.try_from rollup_data.signature with
    | .error _ => false
    | .ok signature => verifySignature verification_key signature hash

/-- Signature filter: retain rollup datas that verify under the sequencer
envelope's verification key. -/
def retainVerified (verification_key : Nat)
    (m : List (Namespace × SignedNamespaceData RollupNamespaceData)) :
    List (Namespace × SignedNamespaceData RollupNamespaceData) :=
  m.filter (fun p => verifyRollupEntry verification_key p.2)

/-- `CelestiaClient::get_all_rollup_data_from_sequencer_namespace_data`:
construct the verification key from the sequencer envelope's stored key
bytes (fatal on failure), fetch all blobs at `height` for the namespaces the
envelope lists (a `blob: not found` call error is absence, any other
transport error is fatal), then deserialize, filter by block-hash linkage,
filter by signature under the sequencer envelope's key, and build the block
from the envelope's own header data plus the surviving transaction lists. -/
def get_all_rollup_data_from_sequencer_namespace_data
    (blob_get_all : GetAllRequest → Except ErrorKind GetAllResponse)
    (height : Nat)
    (namespace_data : SignedNamespaceData SequencerNamespaceData) :
    Except String (Option SequencerBlockData) :=
  match VerificationKey.try_from namespace_data.public_key with
  | .error _ => .error "failed constructing verification key from stored bytes"
  | .ok verification_key =>
    let namespace_ids := namespace_data.data.rollup_namespaces
    match blob_get_all ⟨height, namespace_ids⟩ with
    | .error e =>
      if errorSignalsNotFound e then .ok none
      else .error "failed getting namespaced data"
    | .ok rsp =>
      let rollup_datas := collectRollupDatas rsp.blobs
      let rollup_datas := retainMatchingBlockHash namespace_data.data.block_hash rollup_datas
      let rollup_datas := retainVerified verification_key rollup_datas
      let rollup_txs := rollup_datas.map (fun p => (p.1, p.2.data.rollup_txs))
      .ok (some ⟨namespace_data.data.block_hash, namespace_data.data.header,
                 namespace_data.data.last_commit, rollup_txs⟩)

/-! Closed forms for the assembler's output, used to state its shape. -/

/-- The signed rollup envelope the assembler produces for one mapping entry. -/
def rollupEnvelopeOf (block_hash : List Nat) (signing_key : Nat)
    (txs : List IndexedTransaction) : SignedNamespaceData RollupNamespaceData :=
  ⟨⟨block_hash, txs⟩, KeyBytes.keyOf signing_key,
    SigBytes.sigOf signing_key (MsgHash.rollupHash ⟨block_hash, txs⟩)⟩

/-- The sequencer-namespace payload the assembler produces for a block. -/
def sequencerDataOf (block : SequencerBlockData) : SequencerNamespaceData :=
  ⟨block.block_hash, block.header, block.last_commit, block.rollup_txs.map Prod.fst⟩

/-- The signed sequencer envelope the assembler produces for a block. -/
def sequencerEnvelopeOf (block : SequencerBlockData) (signing_key : Nat) :
    SignedNamespaceData SequencerNamespaceData :=
  ⟨sequencerDataOf block, KeyBytes.keyOf signing_key,
    SigBytes.sigOf signing_key (MsgHash.sequencerHash (sequencerDataOf block))⟩

/-- The full blob list a successful assembly produces: one rollup blob per
mapping entry in order, then the base-namespace sequencer blob. -/
def assembledBlobsOf (block : SequencerBlockData) (signing_key : Nat) : List Blob :=
  block.rollup_txs.map (fun p =>
      Blob.mk p.1 (BlobBytes.rollupBytes (rollupEnvelopeOf block.block_hash signing_key p.2)))
    ++ [Blob.mk DEFAULT_NAMESPACE (BlobBytes.sequencerBytes (sequencerEnvelopeOf block signing_key))]

/-! Concrete example values for evaluating the functions on closed inputs. -/

/-- Example block: hash `[7]`, serializable header, one rollup namespace `5`
holding one transaction. -/
def exampleBlock : SequencerBlockData :=
  ⟨[7], ⟨0, true⟩, none, [(5, [⟨0, [1]⟩])]⟩

/-- Example retrieved sequencer envelope for `exampleBlock`'s hash, keyed by
verification key `1` (its own signature bytes are deliberately malformed to
record that the reconstruction path never reads them). -/
def exampleEnvelope : SignedNamespaceData SequencerNamespaceData :=
  ⟨⟨[7], ⟨0, true⟩, none, [5]⟩, KeyBytes.keyOf 1, SigBytes.malformedSig []⟩

/-- Example retrieved rollup envelope: signed by key `1` over its payload's
hash, but carrying an unrelated embedded public key `99`. -/
def exampleRollupEnvelope : SignedNamespaceData RollupNamespaceData :=
  ⟨⟨[7], [⟨0, [1]⟩]⟩, KeyBytes.keyOf 99,
    SigBytes.sigOf 1 (MsgHash.rollupHash ⟨[7], [⟨0, [1]⟩]⟩)⟩

/-- Example unrelated rollup envelope with a different block hash. -/
def exampleJunkEnvelope : SignedNamespaceData RollupNamespaceData :=
  ⟨⟨[9], []⟩, KeyBytes.keyOf 2, SigBytes.malformedSig [1]⟩

/-- Example sequencer envelope with malformed public-key bytes. -/
def exampleBadKeyEnvelope : SignedNamespaceData SequencerNamespaceData :=
  ⟨⟨[3], ⟨0, true⟩, none, []⟩, KeyBytes.malformedKey [1, 2], SigBytes.malformedSig []⟩

theorem hashMapInsert_of_not_mem {α : Type} {m : List (Namespace × α)} {k : Namespace}
    (v : α) (h : ∀ p ∈ m, p.1 ≠ k) : hashMapInsert m k v = m ++ [(k, v)] := by
  have hany : m.any (fun p => p.1 == k) = false := by
    simp only [List.any_eq_false, beq_iff_eq]
    exact h
  simp [hashMapInsert, hany]

theorem hashMapCollect_go {α : Type} (l : List (Namespace × α)) :
    ∀ acc : List (Namespace × α), (l.map Prod.fst).Nodup →
    (∀ p ∈ l, ∀ q ∈ acc, q.1 ≠ p.1) →
    l.foldl (fun m p => hashMapInsert m p.1 p.2) acc = acc ++ l := by
  induction l with
  | nil => intro acc _ _; simp
  | cons p rest ih =>
    intro acc hnd hdisj
    simp only [List.map_cons, List.nodup_cons] at hnd
    simp only [List.foldl_cons]
    rw [hashMapInsert_of_not_mem p.2 (fun q hq => hdisj p (List.mem_cons_self p rest) q hq)]
    rw [ih (acc ++ [p]) hnd.2 ?_]
    · simp
    · intro r hr q hq
      rcases List.mem_append.mp hq with hq | hq
      · exact hdisj r (List.mem_cons_of_mem p hr) q hq
      · have hqp : q = p := by simpa using hq
        subst hqp
        intro hcontra
        exact hnd.1 (hcontra ▸ List.mem_map_of_mem Prod.fst hr)

theorem hashMapCollect_of_nodup_keys {α : Type} (l : List (Namespace × α))
    (h : (l.map Prod.fst).Nodup) : hashMapCollect l = l := by
  unfold hashMapCollect
  rw [hashMapCollect_go l [] h (by simp)]
  simp

theorem assembleRollupBlobs_eq (block_hash : List Nat) (signing_key : Nat)
    (l : List (Namespace × List IndexedTransaction)) :
    assembleRollupBlobs block_hash signing_key l
      = .ok (l.map (fun p =>
          Blob.mk p.1 (BlobBytes.rollupBytes (rollupEnvelopeOf block_hash signing_key p.2)))) := by
  induction l with
  | nil => rfl
  | cons p rest ih =>
    simp only [assembleRollupBlobs]
    rw [ih]
    rfl

theorem assemble_eq_of_serializable (block : SequencerBlockData) (signing_key : Nat)
    (hser : block.header.serializable = true) :
    assemble_blobs_from_sequencer_block_data block signing_key
      = .ok (assembledBlobsOf block signing_key) := by
  unfold assemble_blobs_from_sequencer_block_data
  rw [assembleRollupBlobs_eq]
  simp only [NamespaceData.to_signed, NamespaceData.hash_json_serialized_bytes,
    SignedNamespaceData.to_bytes, NamespaceData.envelope_to_bytes, hser, if_true]
  rfl

/-! Evaluation lemmas for the reconstruction path. -/

theorem reconstruct_of_fetch_ok
    (blob_get_all : GetAllRequest → Except ErrorKind GetAllResponse)
    (height vk : Nat) (env : SignedNamespaceData SequencerNamespaceData)
    (rsp : GetAllResponse)
    (hkey : env.public_key = KeyBytes.keyOf vk)
    (hfetch : blob_get_all ⟨height, env.data.rollup_namespaces⟩ = .ok rsp) :
    get_all_rollup_data_from_sequencer_namespace_data blob_get_all height env
      = .ok (some ⟨env.data.block_hash, env.data.header, env.data.last_commit,
          (retainVerified vk (retainMatchingBlockHash env.data.block_hash
            (collectRollupDatas rsp.blobs))).map (fun p => (p.1, p.2.data.rollup_txs))⟩) := by
  unfold get_all_rollup_data_from_sequencer_namespace_data
  rw [hkey]
  simp only [VerificationKey.try_from, hfetch]

theorem reconstruct_of_fetch_error
    (blob_get_all : GetAllRequest → Except ErrorKind GetAllResponse)
    (height vk : Nat) (env : SignedNamespaceData SequencerNamespaceData)
    (e : ErrorKind)
    (hkey : env.public_key = KeyBytes.keyOf vk)
    (hfetch : blob_get_all ⟨height, env.data.rollup_namespaces⟩ = .error e) :
    get_all_rollup_data_from_sequencer_namespace_data blob_get_all height env
      = if errorSignalsNotFound e then .ok none
        else .error "failed getting namespaced data" := by
  unfold get_all_rollup_data_from_sequencer_namespace_data
  rw [hkey]
  simp only [VerificationKey.try_from, hfetch]

theorem reconstruct_of_malformed_key
    (blob_get_all : GetAllRequest → Except ErrorKind GetAllResponse)
    (height : Nat) (env : SignedNamespaceData SequencerNamespaceData)
    (raw : List Nat)
    (hkey : env.public_key = KeyBytes.malformedKey raw) :
    get_all_rollup_data_from_sequencer_namespace_data blob_get_all height env
      = .error "failed constructing verification key from stored bytes" := by
  unfold get_all_rollup_data_from_sequencer_namespace_data
  rw [hkey]
  rfl

theorem filterMap_deser_assembled (block_hash : List Nat) (signing_key : Nat)
    (txs : List (Namespace × List IndexedTransaction)) :
    (txs.map (fun p =>
        Blob.mk p.1 (BlobBytes.rollupBytes (rollupEnvelopeOf block_hash signing_key p.2)))).filterMap
      (fun blob =>
        match SignedNamespaceData.from_bytes RollupNamespaceData blob.data with
        | .ok data => some (blob.namespace_id, data)
        | .error _ => none)
      = txs.map (fun p => (p.1, rollupEnvelopeOf block_hash signing_key p.2)) := by
  induction txs with
  | nil => rfl
  | cons p rest ih => exact congrArg (List.cons _) ih

theorem collectRollupDatas_assembled (block : SequencerBlockData) (signing_key : Nat)
    (hkeys : (block.rollup_txs.map Prod.fst).Nodup) :
    collectRollupDatas (assembledBlobsOf block signing_key)
      = block.rollup_txs.map (fun p =>
          (p.1, rollupEnvelopeOf block.block_hash signing_key p.2)) := by
  unfold collectRollupDatas assembledBlobsOf
  rw [List.filterMap_append, filterMap_deser_assembled]
  have hnil : List.filterMap
      (fun blob =>
        match SignedNamespaceData.from_bytes RollupNamespaceData blob.data with
        | .ok data => some (blob.namespace_id, data)
        | .error _ => none)
      [Blob.mk DEFAULT_NAMESPACE
        (BlobBytes.sequencerBytes (sequencerEnvelopeOf block signing_key))] = [] := rfl
  rw [hnil, List.append_nil]
  refine hashMapCollect_of_nodup_keys _ ?_
  simpa [List.map_map, Function.comp] using hkeys

theorem retainMatchingBlockHash_assembled (block : SequencerBlockData) (signing_key : Nat) :
    retainMatchingBlockHash block.block_hash
        (block.rollup_txs.map (fun p =>
          (p.1, rollupEnvelopeOf block.block_hash signing_key p.2)))
      = block.rollup_txs.map (fun p =>
          (p.1, rollupEnvelopeOf block.block_hash signing_key p.2)) := by
  refine List.filter_eq_self.mpr ?_
  intro a ha
  obtain ⟨p, hp, rfl⟩ := List.mem_map.mp ha
  simp [rollupEnvelopeOf]

theorem retainVerified_assembled (block : SequencerBlockData) (signing_key : Nat) :
    retainVerified signing_key
        (block.rollup_txs.map (fun p =>
          (p.1, rollupEnvelopeOf block.block_hash signing_key p.2)))
      = block.rollup_txs.map (fun p =>
          (p.1, rollupEnvelopeOf block.block_hash signing_key p.2)) := by
  refine List.filter_eq_self.mpr ?_
  intro a ha
  obtain ⟨p, hp, rfl⟩ := List.mem_map.mp ha
  simp [verifyRollupEntry, rollupEnvelopeOf, Signature.try_from, verifySignature,
    NamespaceData.hash_json_serialized_bytes, rollupPayloadInst]

theorem extract_pairs (block_hash : List Nat) (signing_key : Nat)
    (l : List (Namespace × List IndexedTransaction)) :
    (l.map (fun p => (p.1, rollupEnvelopeOf block_hash signing_key p.2))).map
        (fun p => (p.1, p.2.data.rollup_txs)) = l := by
  induction l with
  | nil => rfl
  | cons p rest ih => exact congrArg (List.cons _) ih

/-- Claim C1: assembling a SequencerBlockData into blobs and reconstructing
from a fetch that returns exactly those blobs, with the base-namespace blob
supplied as the sequencer envelope, yields `Ok(Some(block))` equal to the
original in block hash, header, last commit, and rollup transaction mapping
(here literally equal, which subsumes the order-insensitive reading). -/
theorem claim1_roundtrip (block : SequencerBlockData) (signing_key height : Nat)
    (hkeys : (block.rollup_txs.map Prod.fst).Nodup)
    (hser : block.header.serializable = true) :
    assemble_blobs_from_sequencer_block_data block signing_key
      = .ok (assembledBlobsOf block signing_key) ∧
    (assembledBlobsOf block signing_key).getLast?
      = some (Blob.mk DEFAULT_NAMESPACE
          (BlobBytes.sequencerBytes (sequencerEnvelopeOf block signing_key))) ∧
    get_all_rollup_data_from_sequencer_namespace_data
        (fun _ => .ok ⟨assembledBlobsOf block signing_key⟩) height
        (sequencerEnvelopeOf block signing_key)
      = .ok (some block) := by
  refine ⟨assemble_eq_of_serializable block signing_key hser, ?_, ?_⟩
  · simp [assembledBlobsOf]
  · rw [reconstruct_of_fetch_ok _ height signing_key _ ⟨assembledBlobsOf block signing_key⟩
      rfl rfl]
    dsimp only
    rw [show (sequencerEnvelopeOf block signing_key).data.block_hash = block.block_hash from rfl,
      collectRollupDatas_assembled block signing_key hkeys,
      retainMatchingBlockHash_assembled, retainVerified_assembled, extract_pairs]
    rfl

/-- Claim C5: a successful assembly of a block with `n` rollup namespaces
returns `n + 1` blobs: the first `n` are the signed rollup envelopes tagged
with their own namespaces in mapping order, the last is tagged with the base
namespace and holds the signed SequencerNamespaceData whose namespace list is
the `n` keys in the same order and whose block hash, header, and last commit
come from the input block. -/
theorem claim5_assembler_output_shape (block : SequencerBlockData) (signing_key : Nat)
    (hser : block.header.serializable = true) :
    assemble_blobs_from_sequencer_block_data block signing_key
      = .ok (assembledBlobsOf block signing_key) ∧
    (assembledBlobsOf block signing_key).length = block.rollup_txs.length + 1 ∧
    (assembledBlobsOf block signing_key).take block.rollup_txs.length
      = block.rollup_txs.map (fun p =>
          Blob.mk p.1 (BlobBytes.rollupBytes (rollupEnvelopeOf block.block_hash signing_key p.2))) ∧
    (assembledBlobsOf block signing_key).getLast?
      = some (Blob.mk DEFAULT_NAMESPACE
          (BlobBytes.sequencerBytes (sequencerEnvelopeOf block signing_key))) ∧
    (sequencerEnvelopeOf block signing_key).data.rollup_namespaces
      = block.rollup_txs.map Prod.fst ∧
    (sequencerEnvelopeOf block signing_key).data.block_hash = block.block_hash ∧
    (sequencerEnvelopeOf block signing_key).data.header = block.header ∧
    (sequencerEnvelopeOf block signing_key).data.last_commit = block.last_commit := by
  refine ⟨assemble_eq_of_serializable block signing_key hser, ?_, ?_, ?_, rfl, rfl, rfl, rfl⟩
  · simp [assembledBlobsOf]
  · rw [assembledBlobsOf,
      show block.rollup_txs.length
        = (block.rollup_txs.map (fun p =>
            Blob.mk p.1 (BlobBytes.rollupBytes
              (rollupEnvelopeOf block.block_hash signing_key p.2)))).length
        from (List.length_map ..).symm]
    exact List.take_left _ _
  · simp [assembledBlobsOf]

/-- Claim C9: assembly is deterministic — two successful runs on the same
block value and signing key produce identical blob lists. -/
theorem claim9_deterministic_assembly (block : SequencerBlockData) (signing_key : Nat)
    (b₁ b₂ : List Blob)
    (h₁ : assemble_blobs_from_sequencer_block_data block signing_key = .ok b₁)
    (h₂ : assemble_blobs_from_sequencer_block_data block signing_key = .ok b₂) :
    b₁ = b₂ := by
  rw [h₁] at h₂
  exact Except.ok.inj h₂

theorem mem_reconstructed_mapping
    (blob_get_all : GetAllRequest → Except ErrorKind GetAllResponse)
    (height vk : Nat) (env : SignedNamespaceData SequencerNamespaceData)
    (block : SequencerBlockData) (ns : Namespace) (txs : List IndexedTransaction)
    (hkey : env.public_key = KeyBytes.keyOf vk)
    (hres : get_all_rollup_data_from_sequencer_namespace_data blob_get_all height env
      = .ok (some block))
    (hmem : (ns, txs) ∈ block.rollup_txs) :
    ∃ rsp rd,
      blob_get_all ⟨height, env.data.rollup_namespaces⟩ = .ok rsp ∧
      (ns, rd) ∈ collectRollupDatas rsp.blobs ∧
      env.data.block_hash = rd.data.block_hash ∧
      verifyRollupEntry vk rd = true ∧
      rd.data.rollup_txs = txs := by
  cases hfetch : blob_get_all ⟨height, env.data.rollup_namespaces⟩ with
  | error e =>
    rw [reconstruct_of_fetch_error _ height vk env e hkey hfetch] at hres
    by_cases hnf : errorSignalsNotFound e
    · rw [if_pos hnf] at hres
      simp at hres
    · rw [if_neg hnf] at hres
      simp at hres
  | ok rsp =>
    rw [reconstruct_of_fetch_ok _ height vk env rsp hkey hfetch] at hres
    have hb : (⟨env.data.block_hash, env.data.header, env.data.last_commit,
        (retainVerified vk (retainMatchingBlockHash env.data.block_hash
          (collectRollupDatas rsp.blobs))).map (fun p => (p.1, p.2.data.rollup_txs))⟩ :
        SequencerBlockData) = block := Option.some.inj (Except.ok.inj hres)
    rw [← hb] at hmem
    dsimp only at hmem
    obtain ⟨p, hp, hpe⟩ := List.mem_map.mp hmem
    have hp1 : p.1 = ns := congrArg Prod.fst hpe
    have hp2 : p.2.data.rollup_txs = txs := congrArg Prod.snd hpe
    unfold retainVerified at hp
    rw [List.mem_filter] at hp
    obtain ⟨hpm, hpv⟩ := hp
    unfold retainMatchingBlockHash at hpm
    rw [List.mem_filter] at hpm
    obtain ⟨hpc, hph⟩ := hpm
    have hpns : (ns, p.2) = p := by rw [← hp1]
    refine ⟨rsp, p.2, rfl, hpns ▸ hpc, of_decide_eq_true hph, hpv, hp2⟩

/-- Claim C2: a rollup entry appears in the reconstructed mapping only if the
verification key taken from the sequencer envelope validates its signature
over the hash of its serialized payload; the key embedded in the rollup
envelope itself plays no role in the check. -/
theorem claim2_verify_uses_sequencer_key
    (blob_get_all : GetAllRequest → Except ErrorKind GetAllResponse)
    (height vk : Nat) (env : SignedNamespaceData SequencerNamespaceData)
    (block : SequencerBlockData) (ns : Namespace) (txs : List IndexedTransaction)
    (hkey : env.public_key = KeyBytes.keyOf vk)
    (hres : get_all_rollup_data_from_sequencer_namespace_data blob_get_all height env
      = .ok (some block))
    (hmem : (ns, txs) ∈ block.rollup_txs) :
    ∃ rsp rd,
      blob_get_all ⟨height, env.data.rollup_namespaces⟩ = .ok rsp ∧
      (ns, rd) ∈ collectRollupDatas rsp.blobs ∧
      rd.data.rollup_txs = txs ∧
      verifyRollupEntry vk rd = true ∧
      ∀ pk : KeyBytes, verifyRollupEntry vk ⟨rd.data, pk, rd.signature⟩ = true := by
  obtain ⟨rsp, rd, hfetch, hcol, _, hver, hrd⟩ :=
    mem_reconstructed_mapping blob_get_all height vk env block ns txs hkey hres hmem
  exact ⟨rsp, rd, hfetch, hcol, hrd, hver, fun pk => hver⟩

/-- Claim C3: block-hash equality with the sequencer envelope is a necessary
condition for a rollup entry to appear in the reconstructed mapping — every
entry in the result comes from a fetched blob whose deserialized payload
carries the envelope's block hash. -/
theorem claim3_hash_linkage_necessary
    (blob_get_all : GetAllRequest → Except ErrorKind GetAllResponse)
    (height vk : Nat) (env : SignedNamespaceData SequencerNamespaceData)
    (block : SequencerBlockData) (ns : Namespace) (txs : List IndexedTransaction)
    (hkey : env.public_key = KeyBytes.keyOf vk)
    (hres : get_all_rollup_data_from_sequencer_namespace_data blob_get_all height env
      = .ok (some block))
    (hmem : (ns, txs) ∈ block.rollup_txs) :
    ∃ rsp rd,
      blob_get_all ⟨height, env.data.rollup_namespaces⟩ = .ok rsp ∧
      (ns, rd) ∈ collectRollupDatas rsp.blobs ∧
      rd.data.rollup_txs = txs ∧
      rd.data.block_hash = env.data.block_hash := by
  obtain ⟨rsp, rd, hfetch, hcol, hbh, _, hrd⟩ :=
    mem_reconstructed_mapping blob_get_all height vk env block ns txs hkey hres hmem
  exact ⟨rsp, rd, hfetch, hcol, hrd, hbh.symm⟩

/-- Claim C4: when the rollup-namespace fetch fails, the call returns
`Ok(None)` exactly when the transport error is an RPC call error whose
message contains `blob: not found`; any other transport failure makes the
whole call fail. -/
theorem claim4_absence_signaling (height vk : Nat) (e : ErrorKind)
    (env : SignedNamespaceData SequencerNamespaceData)
    (hkey : env.public_key = KeyBytes.keyOf vk) :
    get_all_rollup_data_from_sequencer_namespace_data (fun _ => .error e) height env
      = if errorSignalsNotFound e then .ok none
        else .error "failed getting namespaced data" :=
  reconstruct_of_fetch_error _ height vk env e hkey rfl

/-- Claim C6: batch submission assembles each block independently, drops
blocks whose assembly fails, passes the concatenation of all successfully
assembled blob lists (in block order) to a single pay-for-blob RPC built from
the client's fee and gas limit, and fails exactly when that RPC fails. -/
theorem claim6_best_effort_batch
    (state_submit_pay_for_blob : SubmitPayForBlobRequest → Except ErrorKind SubmitPayForBlobResponse)
    (client : CelestiaClient) (blocks : List SequencerBlockData) (signing_key : Nat) :
    submit_all_blocks state_submit_pay_for_blob client blocks signing_key
      = match state_submit_pay_for_blob
          ⟨client.fee, client.gas_limit,
            (blocks.map (fun block =>
              match assemble_blobs_from_sequencer_block_data block signing_key with
              | .ok blobs => blobs
              | .error _ => [])).flatten⟩ with
        | .ok rsp => .ok ⟨rsp.height⟩
        | .error _ => .error "failed submitting namespaced data to data availability layer" := by
  have hacc : ∀ (bs : List SequencerBlockData) (acc : List Blob),
      bs.foldl (fun acc block =>
        match assemble_blobs_from_sequencer_block_data block signing_key with
        | .ok blobs => acc ++ blobs
        | .error _ => acc) acc
        = acc ++ (bs.map (fun block =>
            match assemble_blobs_from_sequencer_block_data block signing_key with
            | .ok blobs => blobs
            | .error _ => [])).flatten := by
    intro bs
    induction bs with
    | nil => intro acc; simp
    | cons b rest ih =>
      intro acc
      simp only [List.foldl_cons, List.map_cons, List.flatten_cons]
      cases hb : assemble_blobs_from_sequencer_block_data b signing_key with
      | ok blobs =>
        rw [ih]
        simp [List.append_assoc]
      | error e =>
        rw [ih]
        simp
  unfold submit_all_blocks submit_namespaced_data
  rw [hacc blocks [], List.nil_append]
  dsimp only
  cases hs : state_submit_pay_for_blob
      ⟨client.fee, client.gas_limit,
        (blocks.map (fun block =>
          match assemble_blobs_from_sequencer_block_data block signing_key with
          | .ok blobs => blobs
          | .error _ => [])).flatten⟩ with
  | ok rsp => rfl
  | error e => rfl

/-- Claim C7 counterexample: a sequencer envelope whose public-key bytes are
well-formed but whose signature bytes are malformed does not make the call
fail — the function never examines the envelope's signature bytes and
returns `Ok(Some(...))`. -/
theorem claim7_counterexample :
    ((⟨⟨[3], ⟨0, true⟩, none, []⟩, KeyBytes.keyOf 1, SigBytes.malformedSig [0]⟩ :
        SignedNamespaceData SequencerNamespaceData).signature = SigBytes.malformedSig [0]) ∧
    get_all_rollup_data_from_sequencer_namespace_data (fun _ => .ok ⟨[]⟩) 5
        ⟨⟨[3], ⟨0, true⟩, none, []⟩, KeyBytes.keyOf 1, SigBytes.malformedSig [0]⟩
      = .ok (some ⟨[3], ⟨0, true⟩, none, []⟩) :=
  ⟨rfl, by decide⟩

/-- Claim C7 (amended): malformed public-key bytes on the sequencer envelope
are fatal to the whole call, for every height and transport behaviour; the
envelope's signature bytes are never examined by this function. -/
theorem claim7_malformed_key_fatal
    (blob_get_all : GetAllRequest → Except ErrorKind GetAllResponse)
    (height : Nat) (env : SignedNamespaceData SequencerNamespaceData) (raw : List Nat)
    (hkey : env.public_key = KeyBytes.malformedKey raw) :
    get_all_rollup_data_from_sequencer_namespace_data blob_get_all height env
      = .error "failed constructing verification key from stored bytes" :=
  reconstruct_of_malformed_key blob_get_all height env raw hkey

/-- Claim C8: when every fetched blob is dropped by the deserialization,
block-hash, or signature filters (in particular when the fetch returns no
blobs), reconstruction still returns `Ok(Some(block))` with an empty mapping
and the block hash, header, and last commit copied from the sequencer
envelope's payload. -/
theorem claim8_no_minimum_completeness
    (blob_get_all : GetAllRequest → Except ErrorKind GetAllResponse)
    (height vk : Nat) (env : SignedNamespaceData SequencerNamespaceData)
    (rsp : GetAllResponse)
    (hkey : env.public_key = KeyBytes.keyOf vk)
    (hfetch : blob_get_all ⟨height, env.data.rollup_namespaces⟩ = .ok rsp)
    (hdropped : retainVerified vk (retainMatchingBlockHash env.data.block_hash
        (collectRollupDatas rsp.blobs)) = []) :
    get_all_rollup_data_from_sequencer_namespace_data blob_get_all height env
      = .ok (some ⟨env.data.block_hash, env.data.header, env.data.last_commit, []⟩) := by
  rw [reconstruct_of_fetch_ok _ height vk env rsp hkey hfetch, hdropped]
  rfl

/-- Claim C10: blobs are collected into a namespace-keyed map before the
filters run, with a later deserializable blob overwriting an earlier one
under the same namespace; a blob that would pass both filters is displaced by
a later unrelated deserializable blob sharing its namespace, and its
transactions are then absent from the reconstructed block. -/
theorem claim10_last_insert_wins (height vk : Nat) (ns : Namespace)
    (env : SignedNamespaceData SequencerNamespaceData)
    (good junk : SignedNamespaceData RollupNamespaceData)
    (hkey : env.public_key = KeyBytes.keyOf vk)
    (hjunk : env.data.block_hash ≠ junk.data.block_hash) :
    collectRollupDatas [⟨ns, BlobBytes.rollupBytes good⟩, ⟨ns, BlobBytes.rollupBytes junk⟩]
      = [(ns, junk)] ∧
    get_all_rollup_data_from_sequencer_namespace_data
        (fun _ => .ok ⟨[⟨ns, BlobBytes.rollupBytes good⟩, ⟨ns, BlobBytes.rollupBytes junk⟩]⟩)
        height env
      = .ok (some ⟨env.data.block_hash, env.data.header, env.data.last_commit, []⟩) := by
  have hcol : collectRollupDatas
      [⟨ns, BlobBytes.rollupBytes good⟩, ⟨ns, BlobBytes.rollupBytes junk⟩] = [(ns, junk)] := by
    unfold collectRollupDatas
    show hashMapCollect [(ns, good), (ns, junk)] = [(ns, junk)]
    simp [hashMapCollect, hashMapInsert]
  refine ⟨hcol, ?_⟩
  rw [reconstruct_of_fetch_ok _ height vk env ⟨[⟨ns, BlobBytes.rollupBytes good⟩,
    ⟨ns, BlobBytes.rollupBytes junk⟩]⟩ hkey rfl]
  dsimp only
  rw [hcol]
  have hdrop : retainMatchingBlockHash env.data.block_hash [(ns, junk)] = [] := by
    simp [retainMatchingBlockHash, hjunk]
  rw [hdrop]
  rfl

/-! Witnesses: each claim theorem with hypotheses applied at closed inputs. -/

theorem claim1_roundtrip_witness :
    ((exampleBlock.rollup_txs.map Prod.fst).Nodup ∧
      exampleBlock.header.serializable = true) ∧
    get_all_rollup_data_from_sequencer_namespace_data
        (fun _ => .ok ⟨assembledBlobsOf exampleBlock 1⟩) 9
        (sequencerEnvelopeOf exampleBlock 1)
      = .ok (some exampleBlock) :=
  ⟨⟨by decide, rfl⟩, (claim1_roundtrip exampleBlock 1 9 (by decide) rfl).2.2⟩

theorem claim2_verify_uses_sequencer_key_witness :
    (exampleEnvelope.public_key = KeyBytes.keyOf 1 ∧
     get_all_rollup_data_from_sequencer_namespace_data
        (fun _ => .ok ⟨[⟨5, BlobBytes.rollupBytes exampleRollupEnvelope⟩]⟩) 3 exampleEnvelope
       = .ok (some ⟨[7], ⟨0, true⟩, none, [(5, [⟨0, [1]⟩])]⟩) ∧
     ((5 : Namespace), [(⟨0, [1]⟩ : IndexedTransaction)])
       ∈ (⟨[7], ⟨0, true⟩, none, [(5, [⟨0, [1]⟩])]⟩ : SequencerBlockData).rollup_txs) ∧
    (∃ rsp rd,
      (fun _ : GetAllRequest =>
          (Except.ok ⟨[⟨5, BlobBytes.rollupBytes exampleRollupEnvelope⟩]⟩ :
            Except ErrorKind GetAllResponse))
        ⟨3, exampleEnvelope.data.rollup_namespaces⟩ = .ok rsp ∧
      ((5 : Namespace), rd) ∈ collectRollupDatas rsp.blobs ∧
      rd.data.rollup_txs = [⟨0, [1]⟩] ∧
      verifyRollupEntry 1 rd = true ∧
      ∀ pk : KeyBytes, verifyRollupEntry 1 ⟨rd.data, pk, rd.signature⟩ = true) :=
  ⟨⟨rfl, by decide, by decide⟩,
    claim2_verify_uses_sequencer_key
      (fun _ => .ok ⟨[⟨5, BlobBytes.rollupBytes exampleRollupEnvelope⟩]⟩) 3 1 exampleEnvelope
      ⟨[7], ⟨0, true⟩, none, [(5, [⟨0, [1]⟩])]⟩ 5 [⟨0, [1]⟩] rfl (by decide) (by decide)⟩

theorem claim3_hash_linkage_necessary_witness :
    (exampleEnvelope.public_key = KeyBytes.keyOf 1 ∧
     get_all_rollup_data_from_sequencer_namespace_data
        (fun _ => .ok ⟨[⟨5, BlobBytes.rollupBytes exampleRollupEnvelope⟩]⟩) 3 exampleEnvelope
       = .ok (some ⟨[7], ⟨0, true⟩, none, [(5, [⟨0, [1]⟩])]⟩) ∧
     ((5 : Namespace), [(⟨0, [1]⟩ : IndexedTransaction)])
       ∈ (⟨[7], ⟨0, true⟩, none, [(5, [⟨0, [1]⟩])]⟩ : SequencerBlockData).rollup_txs) ∧
    (∃ rsp rd,
      (fun _ : GetAllRequest =>
          (Except.ok ⟨[⟨5, BlobBytes.rollupBytes exampleRollupEnvelope⟩]⟩ :
            Except ErrorKind GetAllResponse))
        ⟨3, exampleEnvelope.data.rollup_namespaces⟩ = .ok rsp ∧
      ((5 : Namespace), rd) ∈ collectRollupDatas rsp.blobs ∧
      rd.data.rollup_txs = [⟨0, [1]⟩] ∧
      rd.data.block_hash = exampleEnvelope.data.block_hash) :=
  ⟨⟨rfl, by decide, by decide⟩,
    claim3_hash_linkage_necessary
      (fun _ => .ok ⟨[⟨5, BlobBytes.rollupBytes exampleRollupEnvelope⟩]⟩) 3 1 exampleEnvelope
      ⟨[7], ⟨0, true⟩, none, [(5, [⟨0, [1]⟩])]⟩ 5 [⟨0, [1]⟩] rfl (by decide) (by decide)⟩

theorem claim4_absence_signaling_witness :
    exampleEnvelope.public_key = KeyBytes.keyOf 1 ∧
    get_all_rollup_data_from_sequencer_namespace_data
        (fun _ => .error (ErrorKind.rpc (JsonRpseeError.call "blob: not found"))) 3
        exampleEnvelope
      = if errorSignalsNotFound (ErrorKind.rpc (JsonRpseeError.call "blob: not found"))
        then .ok none else .error "failed getting namespaced data" :=
  ⟨rfl, claim4_absence_signaling 3 1 _ exampleEnvelope rfl⟩

theorem claim5_assembler_output_shape_witness :
    exampleBlock.header.serializable = true ∧
    assemble_blobs_from_sequencer_block_data exampleBlock 1
      = .ok (assembledBlobsOf exampleBlock 1) :=
  ⟨rfl, (claim5_assembler_output_shape exampleBlock 1 rfl).1⟩

theorem claim7_malformed_key_fatal_witness :
    exampleBadKeyEnvelope.public_key = KeyBytes.malformedKey [1, 2] ∧
    get_all_rollup_data_from_sequencer_namespace_data (fun _ => .ok ⟨[]⟩) 2
        exampleBadKeyEnvelope
      = .error "failed constructing verification key from stored bytes" :=
  ⟨rfl, claim7_malformed_key_fatal _ 2 exampleBadKeyEnvelope [1, 2] rfl⟩

theorem claim8_no_minimum_completeness_witness :
    (exampleEnvelope.public_key = KeyBytes.keyOf 1 ∧
     retainVerified 1 (retainMatchingBlockHash exampleEnvelope.data.block_hash
       (collectRollupDatas [⟨5, BlobBytes.garbage [9]⟩])) = []) ∧
    get_all_rollup_data_from_sequencer_namespace_data
        (fun _ => .ok ⟨[⟨5, BlobBytes.garbage [9]⟩]⟩) 3 exampleEnvelope
      = .ok (some ⟨exampleEnvelope.data.block_hash, exampleEnvelope.data.header,
          exampleEnvelope.data.last_commit, []⟩) :=
  ⟨⟨rfl, by decide⟩,
    claim8_no_minimum_completeness _ 3 1 exampleEnvelope ⟨[⟨5, BlobBytes.garbage [9]⟩]⟩
      rfl rfl (by decide)⟩

theorem claim9_deterministic_assembly_witness :
    assemble_blobs_from_sequencer_block_data exampleBlock 1
      = .ok (assembledBlobsOf exampleBlock 1) ∧
    assembledBlobsOf exampleBlock 1 = assembledBlobsOf exampleBlock 1 :=
  ⟨rfl, claim9_deterministic_assembly exampleBlock 1 _ _ rfl rfl⟩

theorem claim10_last_insert_wins_witness :
    (exampleEnvelope.public_key = KeyBytes.keyOf 1 ∧
     exampleEnvelope.data.block_hash ≠ exampleJunkEnvelope.data.block_hash) ∧
    (collectRollupDatas [⟨5, BlobBytes.rollupBytes exampleRollupEnvelope⟩,
        ⟨5, BlobBytes.rollupBytes exampleJunkEnvelope⟩] = [(5, exampleJunkEnvelope)] ∧
     get_all_rollup_data_from_sequencer_namespace_data
        (fun _ => .ok ⟨[⟨5, BlobBytes.rollupBytes exampleRollupEnvelope⟩,
          ⟨5, BlobBytes.rollupBytes exampleJunkEnvelope⟩]⟩) 3 exampleEnvelope
       = .ok (some ⟨exampleEnvelope.data.block_hash, exampleEnvelope.data.header,
           exampleEnvelope.data.last_commit, []⟩)) :=
  ⟨⟨rfl, by decide⟩,
    claim10_last_insert_wins 3 1 5 exampleEnvelope exampleRollupEnvelope
      exampleJunkEnvelope rfl (by decide)⟩

end Astria
